import Mathlib

/-!
Shallow embedding of the geng-egui render/input bridge
(src/lib.rs, src/painter.rs) for spec verification.

Machine floats (f32/f64) are modelled as rationals (ℚ); usize as ℕ.
External collaborators (egui, geng window, ugli GPU backend) are modelled
by their observable behaviour at the call sites used by this crate:
GPU textures by their size, pixel grid and filter; draw submission,
log output and texture application as an explicit trace of events;
Rust panics (todo!, assert_eq!) as an explicit `Res.panic` outcome.
-/

/-- Texture magnification filter (the backend ugli filter enum as used here;
named TexFilter to avoid clashing with the Mathlib Filter type). -/
inductive TexFilter
  | nearest
  | linear
deriving DecidableEq, Repr

/-- egui::TextureId: library-managed ids and user-provided ids. -/
inductive TextureId
  | managed (id : Nat)
  | user (id : Nat)
deriving DecidableEq, Repr

/-- egui::TextureFilter (only magnification is consulted by the painter). -/
inductive TextureFilter
  | nearest
  | linear
deriving DecidableEq, Repr

/-- egui::TextureOptions as consumed by Painter::set_texture. -/
structure TextureOptions where
  magnification : TextureFilter
deriving DecidableEq, Repr

/-- One source pixel of an egui color image (Color32, sRGBA, u8 channels). -/
structure Color32 where
  r : Nat
  g : Nat
  b : Nat
  a : Nat
deriving DecidableEq, Repr

/-- egui::ColorImage: row-major pixel data, row 0 at the top. -/
structure ColorImage where
  width : Nat
  height : Nat
  pixels : List Color32
deriving DecidableEq, Repr

/-- egui::FontImage: row-major alpha coverage data (f32 per pixel). -/
structure FontImage where
  width : Nat
  height : Nat
  pixels : List ℚ
deriving DecidableEq, Repr

/-- egui::ImageData. -/
inductive ImageData
  | color (image : ColorImage)
  | font (image : FontImage)
deriving DecidableEq, Repr

/-- egui::epaint::ImageDelta: `pos = some _` means a sub-rectangle
(partial) update, `none` means a full create-or-replace. -/
structure ImageDelta where
  image : ImageData
  options : TextureOptions
  pos : Option (Nat × Nat)
deriving DecidableEq, Repr

/-- egui::TexturesDelta: creates/updates in `set`, deletions in `free`. -/
structure TexturesDelta where
  set : List (TextureId × ImageDelta)
  free : List TextureId
deriving DecidableEq, Repr

/-- TexturesDelta::default(). -/
def TexturesDelta.empty : TexturesDelta := ⟨[], []⟩

/-- The egui TexturesDelta::append: extends `set` and `free` in order. -/
def TexturesDelta.append (a b : TexturesDelta) : TexturesDelta :=
  ⟨a.set ++ b.set, a.free ++ b.free⟩

/-- A backend color value (geng Rgba<f32>, channels in [0,1] as ℚ). -/
structure RgbaF where
  r : ℚ
  g : ℚ
  b : ℚ
  a : ℚ
deriving DecidableEq, Repr

/-- Rgba::new(u8,...).convert() to float channels: divide by 255. -/
def rgbaOfColor32 (c : Color32) : RgbaF :=
  ⟨(c.r : ℚ) / 255, (c.g : ℚ) / 255, (c.b : ℚ) / 255, (c.a : ℚ) / 255⟩

/-- A GPU texture (ugli::Texture) as observed by this crate: its size,
its pixel grid (rows of pixels, row index = the `pixel.y` coordinate the
`new_with` closure receives), and its filter. -/
structure UgliTexture where
  size : Nat × Nat
  rows : List (List RgbaF)
  filter : TexFilter
deriving DecidableEq, Repr

/-- ugli::Texture::new_with: materialize the closure over the pixel grid.
The filter starts at the backend default (linear); every caller in this
crate immediately overwrites it via set_filter. -/
def UgliTexture.new_with (size : Nat × Nat) (f : Nat → Nat → RgbaF) : UgliTexture :=
  ⟨size, (List.range size.2).map fun y => (List.range size.1).map fun x => f x y, .linear⟩

/-- Texture::set_filter. -/
def UgliTexture.set_filter (t : UgliTexture) (f : TexFilter) : UgliTexture :=
  { t with filter := f }

/-- Pixel lookup in a texture at column x, row y. -/
def UgliTexture.pixel (t : UgliTexture) (x y : Nat) : RgbaF :=
  (t.rows.getD y []).getD x ⟨0, 0, 0, 0⟩

/-- The painter texture cache (HashMap<egui::TextureId, ugli::Texture>),
modelled as an association list with at most one entry per id. -/
abbrev Cache := List (TextureId × UgliTexture)

/-- HashMap::get. -/
def Cache.lookup (c : Cache) (id : TextureId) : Option UgliTexture :=
  match c with
  | [] => none
  | (k, t) :: rest => if k = id then some t else Cache.lookup rest id

/-- HashMap::insert (replaces any previous entry for the id). -/
def Cache.insert (c : Cache) (id : TextureId) (t : UgliTexture) : Cache :=
  match c with
  | [] => [(id, t)]
  | (k, u) :: rest => if k = id then (id, t) :: rest else (k, u) :: Cache.insert rest id t

/-- HashMap::remove. -/
def Cache.remove (c : Cache) (id : TextureId) : Cache :=
  match c with
  | [] => []
  | (k, u) :: rest => if k = id then rest else (k, u) :: Cache.remove rest id

/-- Diagnostics emitted through the log crate. -/
inductive LogMsg
  | textureNotFound (id : Nat)
  | failedToFindTexture (id : TextureId)
  | unsupportedCallback
  | contentsNotDrawn
  | failedToDraw
deriving DecidableEq, Repr

/-- The reasons the painter can halt the process (Rust panics). -/
inductive PanicMsg
  | todoPartialColor
  | todoPartialFont
  | todoUserTexture
  | assertSizeMismatch
deriving DecidableEq, Repr

/-- Outcome of a painter operation: normal return or a Rust panic. -/
inductive Res (α : Type)
  | ok (val : α)
  | panic (msg : PanicMsg)
deriving DecidableEq, Repr

/-- egui::Rect (min/max corners, UI coordinate space). -/
structure Rect where
  min : ℚ × ℚ
  max : ℚ × ℚ
deriving DecidableEq, Repr

/-- pos_to_vec (src/lib.rs): converts an egui Pos2 to a backend vec2,
moving the origin from top-left to bottom-left. -/
def pos_to_vec (pos : ℚ × ℚ) (height : ℚ) : ℚ × ℚ :=
  (pos.1, height - pos.2)

/-- EguiGeng::mouse_to_pos (src/lib.rs): host window position to egui space. -/
def mouse_to_pos (screen_height : ℚ) (mouse : ℚ × ℚ) : ℚ × ℚ :=
  (mouse.1, screen_height - mouse.2)

/-- egui::epaint::Vertex. -/
structure Vertex where
  pos : ℚ × ℚ
  uv : ℚ × ℚ
  color : Color32
deriving DecidableEq, Repr

/-- egui::epaint::Mesh as consumed by paint_job. -/
structure Mesh where
  indices : List Nat
  vertices : List Vertex
  texture_id : TextureId
deriving DecidableEq, Repr

/-- geng draw2d::TexturedVertex. -/
structure TexturedVertex where
  a_pos : ℚ × ℚ
  a_vt : ℚ × ℚ
  a_color : RgbaF
deriving DecidableEq, Repr

/-- textured_vertex (src/painter.rs): egui vertex to geng vertex.
Position flipped via pos_to_vec with the framebuffer height; UV flipped
with height 1; color channels converted u8 to float. -/
def textured_vertex (egui_vertex : Vertex) (height : ℚ) : TexturedVertex :=
  { a_pos := pos_to_vec egui_vertex.pos height
  , a_vt := pos_to_vec egui_vertex.uv 1
  , a_color := rgbaOfColor32 egui_vertex.color }

/-- The opaque payload of an egui paint callback: either the CallbackFn
of this crate (the downcast succeeds) or some other type (downcast fails). -/
inductive CallbackPayload
  | callbackFn (id : Nat)
  | other
deriving DecidableEq, Repr

/-- egui::epaint::PaintCallback. -/
structure PaintCallback where
  rect : Rect
  callback : CallbackPayload
deriving DecidableEq, Repr

/-- egui::PaintCallbackInfo as built by Painter::paint. -/
structure PaintCallbackInfo where
  viewport : Rect
  clip_rect : Rect
  pixels_per_point : ℚ
  screen_size_px : Nat × Nat
deriving DecidableEq, Repr

/-- egui::epaint::Primitive. -/
inductive Primitive
  | mesh (m : Mesh)
  | callback (cb : PaintCallback)
deriving DecidableEq, Repr

/-- egui::ClippedPrimitive. -/
structure ClippedPrimitive where
  clip_rect : Rect
  primitive : Primitive
deriving DecidableEq, Repr

/-- One observable effect of the painter: texture cache application,
a GPU draw submission, a user callback invocation, or a log line. -/
inductive PEvent
  | texSet (id : TextureId)
  | texFree (id : TextureId)
  | drawCall (id : TextureId) (viewport : Nat × Nat) (viewportMax : Nat × Nat)
      (vertices : List TexturedVertex)
  | callbackRun (id : Nat) (info : PaintCallbackInfo)
  | logError (msg : LogMsg)
  | logWarn (msg : LogMsg)
deriving DecidableEq, Repr

/-- Conversion of egui::TextureFilter to the backend filter. -/
def texFilterOf : TextureFilter → TexFilter
  | .nearest => .nearest
  | .linear => .linear

/-- Pixel of a full-create color texture: the new_with closure of
Painter::set_texture. Row index inverted because geng textures have
origin in the bottom-left. -/
def colorAtFlipped (image : ColorImage) (x y : Nat) : RgbaF :=
  rgbaOfColor32 (image.pixels.getD (x + (image.height - 1 - y) * image.width) ⟨0, 0, 0, 0⟩)

/-- Pixel of a full-create font texture: white with the source coverage
value as alpha, row index inverted as for color images. -/
def fontAtFlipped (image : FontImage) (x y : Nat) : RgbaF :=
  ⟨1, 1, 1, image.pixels.getD (x + (image.height - 1 - y) * image.width) 0⟩

/-- Painter::set_texture (src/painter.rs). The assert_eq! size checks and
the todo!() stubs of the partial-update paths are modelled as panics. -/
def set_texture (textures : Cache) (tex_id : TextureId) (delta : ImageDelta) :
    Res (Cache × List PEvent) :=
  let filter := texFilterOf delta.options.magnification
  match delta.pos with
  | some _ =>
    match textures.lookup tex_id with
    | some texture =>
      let _ := texture.set_filter filter
      match delta.image with
      | .color image =>
        if image.width * image.height = image.pixels.length then
          .panic .todoPartialColor
        else
          .panic .assertSizeMismatch
      | .font image =>
        if image.width * image.height = image.pixels.length then
          .panic .todoPartialFont
        else
          .panic .assertSizeMismatch
    | none => .ok (textures, [.logError (.failedToFindTexture tex_id)])
  | none =>
    match delta.image with
    | .color image =>
      if image.width * image.height = image.pixels.length then
        let texture := (UgliTexture.new_with (image.width, image.height)
          (colorAtFlipped image)).set_filter filter
        .ok (textures.insert tex_id texture, [.texSet tex_id])
      else
        .panic .assertSizeMismatch
    | .font image =>
      if image.width * image.height = image.pixels.length then
        let texture := (UgliTexture.new_with (image.width, image.height)
          (fontAtFlipped image)).set_filter filter
        .ok (textures.insert tex_id texture, [.texSet tex_id])
      else
        .panic .assertSizeMismatch

/-- Painter::free_texture: removes the id; unknown ids are a silent no-op. -/
def free_texture (textures : Cache) (tex_id : TextureId) : Cache :=
  textures.remove tex_id

/-- Rust `as usize` on a nonnegative f32: truncation (floor, saturating
at zero for negative values). -/
def ratToUsize (q : ℚ) : Nat := ⌊q⌋.toNat

/-- Componentwise minimum, as Aabb2::from_corners computes it. -/
def qmin (a b : ℚ) : ℚ := if a ≤ b then a else b

/-- Componentwise maximum, as Aabb2::from_corners computes it. -/
def qmax (a b : ℚ) : ℚ := if a ≤ b then b else a

/-- The clip viewport of Painter::paint_job: Aabb2::from_corners of the
two translated corners (componentwise min/max), then cast to usize.
Returns (bottom-left corner, top-right corner). -/
def clipAabb (clip_rect : Rect) (fb_height : ℚ) : (Nat × Nat) × (Nat × Nat) :=
  let p := pos_to_vec clip_rect.min fb_height
  let q := pos_to_vec clip_rect.max fb_height
  ((ratToUsize (qmin p.1 q.1), ratToUsize (qmin p.2 q.2)),
   (ratToUsize (qmax p.1 q.1), ratToUsize (qmax p.2 q.2)))

/-- Painter::paint_job (src/painter.rs): one mesh primitive. Emits the
diagnostic and returns early when a managed texture id is not cached;
hits the todo!() stub for user texture ids; otherwise converts the
indexed vertices (position flipped and shifted by the viewport origin)
and submits one draw call. -/
def paint_job (textures : Cache) (framebuffer_size : ℚ × ℚ) (clip_rect : Rect)
    (mesh : Mesh) : Res (List PEvent) :=
  let aabb := clipAabb clip_rect framebuffer_size.2
  match mesh.texture_id with
  | .managed id =>
    match textures.lookup (TextureId.managed id) with
    | some _texture =>
      let vertex_shift : ℚ × ℚ := ((aabb.1.1 : ℚ), (aabb.1.2 : ℚ))
      let vertices := mesh.indices.map fun i =>
        let v := textured_vertex (mesh.vertices.getD i ⟨(0, 0), (0, 0), ⟨0, 0, 0, 0⟩⟩)
          framebuffer_size.2
        { v with a_pos := (v.a_pos.1 - vertex_shift.1, v.a_pos.2 - vertex_shift.2) }
      .ok [.drawCall mesh.texture_id aabb.1 aabb.2 vertices]
    | none => .ok [.logError (.textureNotFound id)]
  | .user _ => .panic .todoUserTexture

/-- Rust f32::round for nonnegative values, cast to an unsigned integer. -/
def ratRound (q : ℚ) : Nat := (round q).toNat

/-- Painter::paint (src/painter.rs): paints each clipped primitive in
order; meshes through paint_job, callbacks by downcasting to CallbackFn
(unknown payload types produce a warning and are skipped). -/
def paint (textures : Cache) (framebuffer_size : ℚ × ℚ)
    (primitives : List ClippedPrimitive) (pixels_per_point : ℚ) : Res (List PEvent) :=
  match primitives with
  | [] => .ok []
  | clipped :: rest =>
    let head : Res (List PEvent) :=
      match clipped.primitive with
      | .mesh m => paint_job textures framebuffer_size clipped.clip_rect m
      | .callback cb =>
        let info : PaintCallbackInfo :=
          { viewport := cb.rect
          , clip_rect := clipped.clip_rect
          , pixels_per_point := pixels_per_point
          , screen_size_px := (ratRound framebuffer_size.1, ratRound framebuffer_size.2) }
        match cb.callback with
        | .callbackFn id => .ok [.callbackRun id info]
        | .other => .ok [.logWarn .unsupportedCallback]
    match head with
    | .panic m => .panic m
    | .ok evs =>
      match paint textures framebuffer_size rest pixels_per_point with
      | .panic m => .panic m
      | .ok evs2 => .ok (evs ++ evs2)

/-- The first loop of Painter::paint_and_update_textures: apply every
create/update delta in order, threading the cache. -/
def applySets (textures : Cache) : List (TextureId × ImageDelta) → Res (Cache × List PEvent)
  | [] => .ok (textures, [])
  | (id, delta) :: rest =>
    match set_texture textures id delta with
    | .panic m => .panic m
    | .ok (c1, evs) =>
      match applySets c1 rest with
      | .panic m => .panic m
      | .ok (c2, evs2) => .ok (c2, evs ++ evs2)

/-- Painter::paint_and_update_textures (src/painter.rs): apply the set
deltas, paint all primitives, then apply the frees. -/
def paint_and_update_textures (textures : Cache) (framebuffer_size : ℚ × ℚ)
    (primitives : List ClippedPrimitive) (textures_delta : TexturesDelta)
    (pixels_per_point : ℚ) : Res (Cache × List PEvent) :=
  match applySets textures textures_delta.set with
  | .panic m => .panic m
  | .ok (c1, se) =>
    match paint c1 framebuffer_size primitives pixels_per_point with
    | .panic m => .panic m
    | .ok pe =>
      .ok (textures_delta.free.foldl free_texture c1,
        se ++ pe ++ textures_delta.free.map PEvent.texFree)

/-- egui::Modifiers (fields used by this crate; `..default()` fills the
rest with false). -/
structure Modifiers where
  alt : Bool
  ctrl : Bool
  shift : Bool
  mac_cmd : Bool
  command : Bool
deriving DecidableEq, Repr

/-- The live modifier-key queries this crate performs on the host window
(geng window is_key_pressed for AltLeft, ControlLeft, ShiftLeft). -/
structure WindowKeys where
  altLeft : Bool
  ctrlLeft : Bool
  shiftLeft : Bool
deriving DecidableEq, Repr

/-- EguiGeng::get_modifiers (src/lib.rs). -/
def get_modifiers (w : WindowKeys) : Modifiers :=
  ⟨w.altLeft, w.ctrlLeft, w.shiftLeft, false, false⟩

/-- geng::Key: the host key codes named by src/lib.rs, plus
representatives of the unmapped keys handled by the catch-all arm
(tab, f1, shiftLeft, altLeft, controlLeft behave like every other
key not listed in the egui_key table). -/
inductive GengKey
  | digit0 | digit1 | digit2 | digit3 | digit4
  | digit5 | digit6 | digit7 | digit8 | digit9
  | numpad0 | numpad1 | numpad2 | numpad3 | numpad4
  | numpad5 | numpad6 | numpad7 | numpad8 | numpad9
  | a | b | c | d | e | f | g | h | i | j | k | l | m
  | n | o | p | q | r | s | t | u | v | w | x | y | z
  | escape | space | enter | backspace
  | arrowLeft | arrowRight | arrowUp | arrowDown
  | pageUp | pageDown
  | tab | f1 | shiftLeft | altLeft | controlLeft
deriving DecidableEq, Repr

/-- egui::Key: the variants reachable through egui_key. -/
inductive EguiKey
  | num0 | num1 | num2 | num3 | num4
  | num5 | num6 | num7 | num8 | num9
  | a | b | c | d | e | f | g | h | i | j | k | l | m
  | n | o | p | q | r | s | t | u | v | w | x | y | z
  | escape | space | enter | backspace
  | arrowLeft | arrowRight | arrowUp | arrowDown
  | pageUp | pageDown
deriving DecidableEq, Repr

/-- egui_key (src/lib.rs): fixed host-key to egui-key table; keys not in
the table map to none (the `_ => None` arm). -/
def egui_key (geng_key : GengKey) : Option EguiKey :=
  match geng_key with
  | .digit0 | .numpad0 => some .num0
  | .digit1 | .numpad1 => some .num1
  | .digit2 | .numpad2 => some .num2
  | .digit3 | .numpad3 => some .num3
  | .digit4 | .numpad4 => some .num4
  | .digit5 | .numpad5 => some .num5
  | .digit6 | .numpad6 => some .num6
  | .digit7 | .numpad7 => some .num7
  | .digit8 | .numpad8 => some .num8
  | .digit9 | .numpad9 => some .num9
  | .a => some .a
  | .b => some .b
  | .c => some .c
  | .d => some .d
  | .e => some .e
  | .f => some .f
  | .g => some .g
  | .h => some .h
  | .i => some .i
  | .j => some .j
  | .k => some .k
  | .l => some .l
  | .m => some .m
  | .n => some .n
  | .o => some .o
  | .p => some .p
  | .q => some .q
  | .r => some .r
  | .s => some .s
  | .t => some .t
  | .u => some .u
  | .v => some .v
  | .w => some .w
  | .x => some .x
  | .y => some .y
  | .z => some .z
  | .escape => some .escape
  | .space => some .space
  | .enter => some .enter
  | .backspace => some .backspace
  | .arrowLeft => some .arrowLeft
  | .arrowRight => some .arrowRight
  | .arrowUp => some .arrowUp
  | .arrowDown => some .arrowDown
  | .pageUp => some .pageUp
  | .pageDown => some .pageDown
  | .tab | .f1 | .shiftLeft | .altLeft | .controlLeft => none

/-- key_char (src/lib.rs): the printable character of an egui key;
none for non-printable keys (the `_ => None` arm). -/
def key_char (key : EguiKey) : Option Char :=
  match key with
  | .a => some 'a'
  | .b => some 'b'
  | .c => some 'c'
  | .d => some 'd'
  | .e => some 'e'
  | .f => some 'f'
  | .g => some 'g'
  | .h => some 'h'
  | .i => some 'i'
  | .j => some 'j'
  | .k => some 'k'
  | .l => some 'l'
  | .m => some 'm'
  | .n => some 'n'
  | .o => some 'o'
  | .p => some 'p'
  | .q => some 'q'
  | .r => some 'r'
  | .s => some 's'
  | .t => some 't'
  | .u => some 'u'
  | .v => some 'v'
  | .w => some 'w'
  | .x => some 'x'
  | .y => some 'y'
  | .z => some 'z'
  | .num0 => some '0'
  | .num1 => some '1'
  | .num2 => some '2'
  | .num3 => some '3'
  | .num4 => some '4'
  | .num5 => some '5'
  | .num6 => some '6'
  | .num7 => some '7'
  | .num8 => some '8'
  | .num9 => some '9'
  | _ => none

/-- geng::MouseButton. -/
inductive MouseButton
  | left | middle | right
deriving DecidableEq, Repr

/-- egui::PointerButton (the three variants produced here). -/
inductive PointerButton
  | primary | middle | secondary
deriving DecidableEq, Repr

/-- egui_button (src/lib.rs). -/
def egui_button (geng_button : MouseButton) : PointerButton :=
  match geng_button with
  | .left => .primary
  | .middle => .middle
  | .right => .secondary

/-- The egui events pushed into egui_input.events by this crate. -/
inductive EguiEvent
  | scroll (delta : ℚ × ℚ)
  | key (key : EguiKey) (modifiers : Modifiers) (pressed : Bool) (rep : Bool)
  | text (s : String)
  | pointerButton (pos : ℚ × ℚ) (button : PointerButton) (pressed : Bool)
      (modifiers : Modifiers)
  | pointerMoved (pos : ℚ × ℚ)
deriving DecidableEq, Repr

/-- geng::Event: the host event kinds consumed by handle_event;
`otherEvent` stands for every kind hitting the `_ => ()` arm. -/
inductive GengEvent
  | wheel (delta : ℚ)
  | keyPress (key : GengKey)
  | keyRelease (key : GengKey)
  | mousePress (button : MouseButton)
  | mouseRelease (button : MouseButton)
  | cursorMove (position : ℚ × ℚ)
  | otherEvent
deriving DecidableEq, Repr

/-- An egui clipped shape, opaque to this crate (only produced by
the egui frame-end and consumed by its tessellator). -/
structure ClippedShape where
  tag : Nat
deriving DecidableEq, Repr

/-- The part of the egui FullOutput consumed by EguiGeng::end_frame. -/
structure FullOutput where
  shapes : List ClippedShape
  textures_delta : TexturesDelta
deriving DecidableEq, Repr

/-- The EguiGeng bridge state (src/lib.rs): the accumulated egui raw
input (events, modifiers, screen rect), the painter texture cache,
and the frame-lifecycle fields. -/
structure EguiGeng where
  egui_events : List EguiEvent
  input_modifiers : Modifiers
  screen_rect : Option Rect
  textures : Cache
  shapes : Option (List ClippedShape)
  textures_delta : TexturesDelta
  screen_height : ℚ
  pointer_position : ℚ × ℚ

/-- EguiGeng::new: empty input, empty cache, no pending shapes,
empty delta, screen_height 1.0, pointer at the origin. -/
def EguiGeng.new : EguiGeng :=
  { egui_events := []
  , input_modifiers := ⟨false, false, false, false, false⟩
  , screen_rect := none
  , textures := ([] : List (TextureId × UgliTexture))
  , shapes := none
  , textures_delta := TexturesDelta.empty
  , screen_height := 1
  , pointer_position := (0, 0) }

/-- EguiGeng::handle_event (src/lib.rs). Rust's
`to_uppercase().next().unwrap()` on the ASCII characters produced by
key_char is Char.toUpper. -/
def handle_event (w : WindowKeys) (st : EguiGeng) (event : GengEvent) : EguiGeng :=
  match event with
  | .wheel delta =>
    if w.shiftLeft then
      { st with egui_events := st.egui_events ++ [.scroll (delta, 0)] }
    else
      { st with egui_events := st.egui_events ++ [.scroll (0, delta)] }
  | .keyPress key =>
    match egui_key key with
    | some key =>
      let modifiers := get_modifiers w
      let st1 := { st with egui_events := st.egui_events ++ [.key key modifiers true false] }
      match key_char key with
      | some symbol =>
        let symbol := if modifiers.shift then symbol.toUpper else symbol
        { st1 with egui_events := st1.egui_events ++ [.text (String.singleton symbol)] }
      | none => st1
    | none => st
  | .keyRelease key =>
    match egui_key key with
    | some key =>
      { st with egui_events := st.egui_events ++ [.key key (get_modifiers w) false false] }
    | none => st
  | .mousePress button =>
    { st with egui_events := st.egui_events ++
        [.pointerButton (mouse_to_pos st.screen_height st.pointer_position)
          (egui_button button) true (get_modifiers w)] }
  | .cursorMove position =>
    { st with pointer_position := position
            , egui_events := st.egui_events ++
                [.pointerMoved (mouse_to_pos st.screen_height position)] }
  | .mouseRelease button =>
    { st with egui_events := st.egui_events ++
        [.pointerButton (mouse_to_pos st.screen_height st.pointer_position)
          (egui_button button) false (get_modifiers w)] }
  | .otherEvent => st

/-- The framebuffer-level effects of one bridge call: a painted frame
(carrying the painter event trace) or a log diagnostic. A draw call
that emits no `painted` effect never touches the framebuffer. -/
inductive DrawEffect
  | painted (events : List PEvent)
  | diagnostic (msg : LogMsg)
deriving DecidableEq, Repr

/-- EguiGeng::begin_frame (src/lib.rs): gather_input stores the current
modifiers, then the egui frame-begin consumes RawInput::take(), which
empties the event queue and takes the screen rect. -/
def begin_frame (w : WindowKeys) (st : EguiGeng) : EguiGeng :=
  { st with input_modifiers := get_modifiers w
          , egui_events := []
          , screen_rect := none }

/-- EguiGeng::end_frame (src/lib.rs): captures the egui output. If a
previous shape list was never drawn, logs an error but proceeds,
overwriting it; appends the new texture delta. Total: never panics. -/
def end_frame (st : EguiGeng) (output : FullOutput) : EguiGeng × List DrawEffect :=
  let logs : List DrawEffect :=
    if st.shapes.isSome then [.diagnostic .contentsNotDrawn] else []
  ({ st with shapes := some output.shapes
           , textures_delta := st.textures_delta.append output.textures_delta }, logs)

/-- EguiGeng::draw (src/lib.rs). `tess` is the egui tessellation of the
shape list (opaque collaborator, passed as an oracle);
`pixels_per_point` is the current pixel density of the egui context. -/
def draw (tess : List ClippedShape → List ClippedPrimitive) (pixels_per_point : ℚ)
    (framebuffer_size : Nat × Nat) (st : EguiGeng) : Res (EguiGeng × List DrawEffect) :=
  let fb : ℚ × ℚ := ((framebuffer_size.1 : ℚ), (framebuffer_size.2 : ℚ))
  let st := { st with screen_height := fb.2
                    , screen_rect := some ⟨(0, 0), (fb.1, fb.2)⟩ }
  match st.shapes with
  | some shapes =>
    let st := { st with shapes := none }
    let paint_jobs := tess shapes
    match paint_and_update_textures st.textures fb paint_jobs st.textures_delta
        pixels_per_point with
    | .panic m => .panic m
    | .ok (c, tr) =>
      .ok ({ st with textures := c, textures_delta := TexturesDelta.empty },
        [.painted tr])
  | none => .ok (st, [.diagnostic .failedToDraw])

/-- One call of the frame-lifecycle API. -/
inductive Op
  | beginOp (w : WindowKeys)
  | endOp (output : FullOutput)
  | drawOp (framebuffer_size : Nat × Nat)
deriving Repr

/-- One frame-lifecycle call dispatched to the corresponding method. -/
def stepOp (tess : List ClippedShape → List ClippedPrimitive) (pixels_per_point : ℚ)
    (st : EguiGeng) : Op → Res (EguiGeng × List DrawEffect)
  | .beginOp w => .ok (begin_frame w st, [])
  | .endOp output => .ok (end_frame st output)
  | .drawOp fb => draw tess pixels_per_point fb st

/-- Run a sequence of begin_frame / end_frame / draw calls, collecting
all framebuffer-level effects in order. -/
def runOps (tess : List ClippedShape → List ClippedPrimitive) (pixels_per_point : ℚ) :
    EguiGeng → List Op → Res (EguiGeng × List DrawEffect)
  | st, [] => .ok (st, [])
  | st, op :: rest =>
    match stepOp tess pixels_per_point st op with
    | .panic m => .panic m
    | .ok (st1, effs) =>
      match runOps tess pixels_per_point st1 rest with
      | .panic m => .panic m
      | .ok (st2, effs2) => .ok (st2, effs ++ effs2)

/-- Whether a framebuffer effect is an actual painted frame. -/
def DrawEffect.isPainted : DrawEffect → Bool
  | .painted _ => true
  | .diagnostic _ => false

/-- Number of painted frames in an effect list. -/
def countPaints (tr : List DrawEffect) : Nat := tr.countP DrawEffect.isPainted

/-- Whether an op is an end_frame call. -/
def Op.isEnd : Op → Bool
  | .endOp _ => true
  | _ => false

/-- Number of end_frame calls in an op list. -/
def countEnds (ops : List Op) : Nat := ops.countP Op.isEnd

/-- One if the state holds an undrawn shape list (the number of paints
its consumption can still contribute), zero otherwise. -/
def endsBonus (st : EguiGeng) : Nat := if st.shapes.isSome then 1 else 0

/-- Whether a painter event is a create/update application to the cache. -/
def PEvent.isSet : PEvent → Bool
  | .texSet _ => true
  | _ => false

/-- Whether a painter event paints a primitive (a GPU draw call or a
user callback invocation). -/
def PEvent.isPaint : PEvent → Bool
  | .drawCall _ _ _ _ => true
  | .callbackRun _ _ => true
  | _ => false

/-- Whether a painter event is a free application to the cache. -/
def PEvent.isFree : PEvent → Bool
  | .texFree _ => true
  | _ => false

/-- Pixel lookup in a freshly materialized texture returns the closure
value at in-range coordinates. -/
theorem new_with_pixel (size : Nat × Nat) (f : Nat → Nat → RgbaF) (x y : Nat)
    (hx : x < size.1) (hy : y < size.2) :
    (UgliTexture.new_with size f).pixel x y = f x y := by
  unfold UgliTexture.new_with UgliTexture.pixel
  simp [List.getD, List.getElem?_map, List.getElem?_range, hx, hy]

/-- C3 helper statement is inline; no extra helpers needed. -/
theorem pos_to_vec_mouse_to_pos (h : ℚ) (m : ℚ × ℚ) :
    pos_to_vec (mouse_to_pos h m) h = m := by
  simp [pos_to_vec, mouse_to_pos]

/-- C3: for every position (x, y) within the framebuffer bounds (0 ≤ x ≤ w,
0 ≤ y ≤ h) and a fixed height h, the host-to-UI translation mouse_to_pos
and the UI-to-backend translation pos_to_vec with the same h compose to
the identity in both orders: the two mappings are exact inverses. -/
theorem c3_coordinate_round_trip (h w x y : ℚ)
    (_hx0 : 0 ≤ x) (_hxw : x ≤ w) (_hy0 : 0 ≤ y) (_hyh : y ≤ h) :
    pos_to_vec (mouse_to_pos h (x, y)) h = (x, y) ∧
    mouse_to_pos h (pos_to_vec (x, y) h) = (x, y) := by
  constructor <;> simp [pos_to_vec, mouse_to_pos]

/-- Witness for C3 at h = 10, w = 5, position (3, 4). -/
theorem c3_coordinate_round_trip_witness :
    pos_to_vec (mouse_to_pos 10 (3, 4)) 10 = (3, 4) ∧
    mouse_to_pos 10 (pos_to_vec (3, 4) 10) = (3, 4) :=
  c3_coordinate_round_trip 10 5 3 4 (by norm_num) (by norm_num) (by norm_num) (by norm_num)

/-- C4 (code bug): a partial update (delta.pos = some _) whose target id
is in the cache does NOT complete: Painter::set_texture reaches the
todo!() stub and panics, for color images and for font images alike,
even though the size contract holds and the claim requires full
partial-update support. The failing input is concrete below. -/
theorem c4_partial_update_hits_todo :
    set_texture [(.managed 0, ⟨(1, 1), [[⟨1, 1, 1, 1⟩]], .linear⟩)] (.managed 0)
      ⟨.color ⟨1, 1, [⟨0, 0, 0, 0⟩]⟩, ⟨.nearest⟩, some (0, 0)⟩ = .panic .todoPartialColor ∧
    set_texture [(.managed 0, ⟨(1, 1), [[⟨1, 1, 1, 1⟩]], .linear⟩)] (.managed 0)
      ⟨.font ⟨1, 1, [1]⟩, ⟨.nearest⟩, some (0, 0)⟩ = .panic .todoPartialFont :=
  ⟨rfl, rfl⟩

/-- C7: every wheel event with scalar delta d pushes exactly one scroll
event: horizontal (d, 0) when the left-shift key is held, vertical
(0, d) otherwise. -/
theorem c7_wheel_scroll (w : WindowKeys) (st : EguiGeng) (d : ℚ) :
    handle_event w st (.wheel d) =
      { st with egui_events := st.egui_events ++
          [.scroll (if w.shiftLeft then (d, 0) else (0, d))] } := by
  cases hw : w.shiftLeft <;> simp [handle_event, hw]

/-- C9: end_frame while a previous shape list is still pending logs the
error, overwrites the stale shape list with the new one, appends the new
texture delta to the accumulated one, and returns normally (end_frame is
a total function of its inputs: it has no panic outcome). -/
theorem c9_end_frame_overwrites_stale (st : EguiGeng) (output : FullOutput)
    (s : List ClippedShape) (hs : st.shapes = some s) :
    end_frame st output =
      ({ st with shapes := some output.shapes
               , textures_delta :=
                   ⟨st.textures_delta.set ++ output.textures_delta.set,
                    st.textures_delta.free ++ output.textures_delta.free⟩ },
        [.diagnostic .contentsNotDrawn]) := by
  simp [end_frame, hs, TexturesDelta.append]

/-- Witness for C9: a pending shape list, a new output with one shape and
a one-element delta. -/
theorem c9_end_frame_overwrites_stale_witness :
    end_frame
        { EguiGeng.new with
            shapes := some [⟨0⟩], textures_delta := ⟨[], [.managed 3]⟩ }
        ⟨[⟨1⟩], ⟨[(.managed 7, ⟨.font ⟨1, 1, [1]⟩, ⟨.linear⟩, none⟩)], [.managed 9]⟩⟩ =
      ({ EguiGeng.new with
            shapes := some [⟨1⟩]
          , textures_delta :=
              ⟨[(.managed 7, ⟨.font ⟨1, 1, [1]⟩, ⟨.linear⟩, none⟩)],
               [.managed 3, .managed 9]⟩ },
        [.diagnostic .contentsNotDrawn]) := by
  have h := c9_end_frame_overwrites_stale
    { EguiGeng.new with shapes := some [⟨0⟩], textures_delta := ⟨[], [.managed 3]⟩ }
    ⟨[⟨1⟩], ⟨[(.managed 7, ⟨.font ⟨1, 1, [1]⟩, ⟨.linear⟩, none⟩)], [.managed 9]⟩⟩
    [⟨0⟩] rfl
  exact h

/-- C10: draw with no pending shape list still mutates state before the
check: screen_height becomes the framebuffer height, the framebuffer
rectangle is recorded as the input screen rect of the next frame, and (as the
resulting state record shows) the accumulated textures_delta is NOT
cleared on this path; the only effect is the diagnostic. -/
theorem c10_draw_no_shapes_updates_screen (tess : List ClippedShape → List ClippedPrimitive)
    (ppp : ℚ) (fb : Nat × Nat) (st : EguiGeng) (hs : st.shapes = none) :
    draw tess ppp fb st =
      .ok ({ st with screen_height := (fb.2 : ℚ)
                   , screen_rect := some ⟨(0, 0), ((fb.1 : ℚ), (fb.2 : ℚ))⟩ },
        [.diagnostic .failedToDraw]) := by
  simp [draw, hs]

/-- Witness for C10 at framebuffer size (3, 5) on a fresh bridge with a
nonempty accumulated delta. -/
theorem c10_draw_no_shapes_updates_screen_witness :
    draw (fun _ => []) 1 (3, 5)
        { EguiGeng.new with textures_delta := ⟨[], [.managed 4]⟩ } =
      .ok ({ EguiGeng.new with textures_delta := ⟨[], [.managed 4]⟩
                             , screen_height := ((3, 5).2 : ℚ)
                             , screen_rect := some ⟨(0, 0), (((3, 5).1 : ℚ), ((3, 5).2 : ℚ))⟩ },
        [.diagnostic .failedToDraw]) :=
  c10_draw_no_shapes_updates_screen (fun _ => []) 1 (3, 5)
    { EguiGeng.new with textures_delta := ⟨[], [.managed 4]⟩ } rfl

/-- C8: a key press whose key maps to a printable character pushes a
key-down event followed by a text event, upper-cased exactly when shift
is held; mapped non-printable keys push only the key-down event; unmapped
keys are dropped without any event (press and release); key releases push
a key-up event and never a text event. -/
theorem c8_key_press_text (w : WindowKeys) (st : EguiGeng) :
    (∀ gk ek ch, egui_key gk = some ek → key_char ek = some ch →
      handle_event w st (.keyPress gk) =
        { st with egui_events := st.egui_events ++
            [.key ek (get_modifiers w) true false,
             .text (String.singleton (if w.shiftLeft then ch.toUpper else ch))] }) ∧
    (∀ gk ek, egui_key gk = some ek → key_char ek = none →
      handle_event w st (.keyPress gk) =
        { st with egui_events := st.egui_events ++ [.key ek (get_modifiers w) true false] }) ∧
    (∀ gk, egui_key gk = none →
      handle_event w st (.keyPress gk) = st ∧ handle_event w st (.keyRelease gk) = st) ∧
    (∀ gk ek, egui_key gk = some ek →
      handle_event w st (.keyRelease gk) =
        { st with egui_events := st.egui_events ++ [.key ek (get_modifiers w) false false] }) := by
  refine ⟨?_, ?_, ?_, ?_⟩
  · intro gk ek ch hk hc
    simp [handle_event, hk, hc, get_modifiers]
  · intro gk ek hk hc
    simp [handle_event, hk, hc]
  · intro gk hk
    constructor <;> simp [handle_event, hk]
  · intro gk ek hk
    simp [handle_event, hk]

/-- Witness for C8: pressing A with shift yields key-down then "A";
without shift the text is "a"; Escape yields only key-down; F1 (unmapped)
yields nothing; releasing A yields key-up and no text. -/
theorem c8_key_press_text_witness :
    handle_event ⟨false, false, true⟩ EguiGeng.new (.keyPress .a) =
      { EguiGeng.new with egui_events :=
          [.key .a ⟨false, false, true, false, false⟩ true false, .text "A"] } ∧
    handle_event ⟨false, false, false⟩ EguiGeng.new (.keyPress .a) =
      { EguiGeng.new with egui_events :=
          [.key .a ⟨false, false, false, false, false⟩ true false, .text "a"] } ∧
    handle_event ⟨false, false, false⟩ EguiGeng.new (.keyPress .escape) =
      { EguiGeng.new with egui_events :=
          [.key .escape ⟨false, false, false, false, false⟩ true false] } ∧
    handle_event ⟨false, false, false⟩ EguiGeng.new (.keyPress .f1) = EguiGeng.new ∧
    handle_event ⟨false, false, true⟩ EguiGeng.new (.keyRelease .a) =
      { EguiGeng.new with egui_events :=
          [.key .a ⟨false, false, true, false, false⟩ false false] } := by
  refine ⟨?_, ?_, ?_, ?_, ?_⟩
  · exact (c8_key_press_text ⟨false, false, true⟩ EguiGeng.new).1 .a .a 'a' rfl rfl
  · exact (c8_key_press_text ⟨false, false, false⟩ EguiGeng.new).1 .a .a 'a' rfl rfl
  · exact (c8_key_press_text ⟨false, false, false⟩ EguiGeng.new).2.1 .escape .escape rfl rfl
  · exact ((c8_key_press_text ⟨false, false, false⟩ EguiGeng.new).2.2.1 .f1 rfl).1
  · exact (c8_key_press_text ⟨false, false, true⟩ EguiGeng.new).2.2.2 .a .a rfl

/-- C6: a full-create delta (no sub-rectangle position) builds the GPU
texture by inverting the row index: the pixel at backend row r, column x
comes from source row height - 1 - r, column x. Color images are copied
RGBA channel-wise (u8 converted to float); font images become white RGB
with the source coverage value as alpha. -/
theorem c6_full_create_row_flip (cache : Cache) (tex_id : TextureId) (opts : TextureOptions) :
    (∀ (img : ColorImage) (x r : Nat),
      img.width * img.height = img.pixels.length → x < img.width → r < img.height →
      set_texture cache tex_id ⟨.color img, opts, none⟩ =
        .ok (cache.insert tex_id
              ((UgliTexture.new_with (img.width, img.height) (colorAtFlipped img)).set_filter
                (texFilterOf opts.magnification)),
          [.texSet tex_id]) ∧
      ((UgliTexture.new_with (img.width, img.height) (colorAtFlipped img)).set_filter
          (texFilterOf opts.magnification)).pixel x r =
        rgbaOfColor32 (img.pixels.getD (x + (img.height - 1 - r) * img.width) ⟨0, 0, 0, 0⟩)) ∧
    (∀ (img : FontImage) (x r : Nat),
      img.width * img.height = img.pixels.length → x < img.width → r < img.height →
      set_texture cache tex_id ⟨.font img, opts, none⟩ =
        .ok (cache.insert tex_id
              ((UgliTexture.new_with (img.width, img.height) (fontAtFlipped img)).set_filter
                (texFilterOf opts.magnification)),
          [.texSet tex_id]) ∧
      ((UgliTexture.new_with (img.width, img.height) (fontAtFlipped img)).set_filter
          (texFilterOf opts.magnification)).pixel x r =
        ⟨1, 1, 1, img.pixels.getD (x + (img.height - 1 - r) * img.width) 0⟩) := by
  constructor
  · intro img x r hsize hx hr
    refine ⟨by simp [set_texture, hsize], ?_⟩
    simpa [UgliTexture.set_filter, colorAtFlipped] using
      new_with_pixel (img.width, img.height) (colorAtFlipped img) x r hx hr
  · intro img x r hsize hx hr
    refine ⟨by simp [set_texture, hsize], ?_⟩
    simpa [UgliTexture.set_filter, fontAtFlipped] using
      new_with_pixel (img.width, img.height) (fontAtFlipped img) x r hx hr

/-- Witness for C6: a 2x2 color image with four distinct colors — backend
row 0 is exactly the last source row — and a 2x2 font image whose
pixel (0,0) becomes white with the bottom-left source coverage as
alpha. -/
theorem c6_full_create_row_flip_witness :
    (set_texture [] (.managed 7)
        ⟨.color ⟨2, 2, [⟨1, 2, 3, 4⟩, ⟨5, 6, 7, 8⟩, ⟨9, 10, 11, 12⟩, ⟨13, 14, 15, 16⟩]⟩,
         ⟨.nearest⟩, none⟩ =
      .ok (Cache.insert [] (.managed 7)
            ((UgliTexture.new_with (2, 2)
                (colorAtFlipped ⟨2, 2, [⟨1, 2, 3, 4⟩, ⟨5, 6, 7, 8⟩, ⟨9, 10, 11, 12⟩,
                  ⟨13, 14, 15, 16⟩]⟩)).set_filter .nearest),
        [.texSet (.managed 7)])) ∧
    ((UgliTexture.new_with (2, 2)
        (colorAtFlipped ⟨2, 2, [⟨1, 2, 3, 4⟩, ⟨5, 6, 7, 8⟩, ⟨9, 10, 11, 12⟩,
          ⟨13, 14, 15, 16⟩]⟩)).set_filter .nearest).pixel 0 0 =
      rgbaOfColor32 ⟨9, 10, 11, 12⟩ ∧
    ((UgliTexture.new_with (2, 2)
        (colorAtFlipped ⟨2, 2, [⟨1, 2, 3, 4⟩, ⟨5, 6, 7, 8⟩, ⟨9, 10, 11, 12⟩,
          ⟨13, 14, 15, 16⟩]⟩)).set_filter .nearest).rows.getD 0 [] =
      [rgbaOfColor32 ⟨9, 10, 11, 12⟩, rgbaOfColor32 ⟨13, 14, 15, 16⟩] ∧
    ((UgliTexture.new_with (2, 2)
        (fontAtFlipped ⟨2, 2, [1/4, 1/2, 3/4, 1]⟩)).set_filter .linear).pixel 0 0 =
      ⟨1, 1, 1, 3/4⟩ := by
  have hc := (c6_full_create_row_flip [] (.managed 7) ⟨.nearest⟩).1
    ⟨2, 2, [⟨1, 2, 3, 4⟩, ⟨5, 6, 7, 8⟩, ⟨9, 10, 11, 12⟩, ⟨13, 14, 15, 16⟩]⟩
    0 0 rfl (by decide) (by decide)
  have hf := (c6_full_create_row_flip [] (.managed 7) ⟨.linear⟩).2
    ⟨2, 2, [1/4, 1/2, 3/4, 1]⟩ 0 0 rfl (by decide) (by decide)
  exact ⟨hc.1, hc.2, rfl, hf.2⟩

/-- C5 counterexample: the claim quantifies over EVERY texture identifier
absent from the cache, but a mesh referencing a user texture id (absent
from the empty cache) is not skipped with a logged error: paint_job hits
the todo!() stub and panics, aborting the draw loop, so the following
primitive of the same frame is never processed. -/
theorem c5_user_id_not_skipped_counterexample :
    paint [] (4, 4)
      [⟨⟨(0, 0), (4, 4)⟩, .mesh ⟨[], [], .user 0⟩⟩,
       ⟨⟨(0, 0), (4, 4)⟩, .callback ⟨⟨(0, 0), (4, 4)⟩, .other⟩⟩] 1 =
      .panic .todoUserTexture :=
  rfl

/-- C5 amended: for every MANAGED texture identifier absent from the
cache, a mesh primitive referencing it yields exactly the logged error
and no draw call; prepended to any primitive list whose paint succeeds,
the remaining primitives still produce their events in order; and a
partial-update delta referencing any absent identifier returns the cache
unchanged with exactly the logged error. All three are non-panicking. -/
theorem c5_missing_texture_skipped (cache : Cache) (fb : ℚ × ℚ) (ppp : ℚ) :
    (∀ (n : Nat) (clip : Rect) (m : Mesh),
      m.texture_id = .managed n → cache.lookup (.managed n) = none →
      paint_job cache fb clip m = .ok [.logError (.textureNotFound n)]) ∧
    (∀ (n : Nat) (clip : Rect) (m : Mesh) (rest : List ClippedPrimitive) (evs : List PEvent),
      m.texture_id = .managed n → cache.lookup (.managed n) = none →
      paint cache fb rest ppp = .ok evs →
      paint cache fb (⟨clip, .mesh m⟩ :: rest) ppp =
        .ok (.logError (.textureNotFound n) :: evs)) ∧
    (∀ (tex_id : TextureId) (delta : ImageDelta) (p : Nat × Nat),
      delta.pos = some p → cache.lookup tex_id = none →
      set_texture cache tex_id delta =
        .ok (cache, [.logError (.failedToFindTexture tex_id)])) := by
  have hjob : ∀ (n : Nat) (clip : Rect) (m : Mesh),
      m.texture_id = .managed n → cache.lookup (.managed n) = none →
      paint_job cache fb clip m = .ok [.logError (.textureNotFound n)] := by
    intro n clip m hm hl
    simp [paint_job, hm, hl]
  refine ⟨hjob, ?_, ?_⟩
  · intro n clip m rest evs hm hl hrest
    simp [paint, hjob n clip m hm hl, hrest]
  · intro tex_id delta p hp hl
    simp [set_texture, hp, hl]

/-- Witness for C5 (amended): managed id 0 absent from a one-entry cache;
the skipping mesh is followed by a callback primitive that still runs its
path; the partial update leaves the cache unchanged. -/
theorem c5_missing_texture_skipped_witness :
    paint_job [(.managed 1, ⟨(1, 1), [[⟨1, 1, 1, 1⟩]], .linear⟩)] (4, 4)
        ⟨(0, 0), (4, 4)⟩ ⟨[], [], .managed 0⟩ =
      .ok [.logError (.textureNotFound 0)] ∧
    paint [(.managed 1, ⟨(1, 1), [[⟨1, 1, 1, 1⟩]], .linear⟩)] (4, 4)
        [⟨⟨(0, 0), (4, 4)⟩, .mesh ⟨[], [], .managed 0⟩⟩,
         ⟨⟨(0, 0), (4, 4)⟩, .callback ⟨⟨(0, 0), (4, 4)⟩, .other⟩⟩] 1 =
      .ok [.logError (.textureNotFound 0), .logWarn .unsupportedCallback] ∧
    set_texture [(.managed 1, ⟨(1, 1), [[⟨1, 1, 1, 1⟩]], .linear⟩)] (.managed 0)
        ⟨.font ⟨1, 1, [1]⟩, ⟨.nearest⟩, some (0, 0)⟩ =
      .ok ([(.managed 1, ⟨(1, 1), [[⟨1, 1, 1, 1⟩]], .linear⟩)],
        [.logError (.failedToFindTexture (.managed 0))]) := by
  have h := c5_missing_texture_skipped
    [(.managed 1, ⟨(1, 1), [[⟨1, 1, 1, 1⟩]], .linear⟩)] (4, 4) 1
  refine ⟨?_, ?_, ?_⟩
  · exact h.1 0 ⟨(0, 0), (4, 4)⟩ ⟨[], [], .managed 0⟩ rfl rfl
  · exact h.2.1 0 ⟨(0, 0), (4, 4)⟩ ⟨[], [], .managed 0⟩
      [⟨⟨(0, 0), (4, 4)⟩, .callback ⟨⟨(0, 0), (4, 4)⟩, .other⟩⟩]
      [.logWarn .unsupportedCallback] rfl rfl rfl
  · exact h.2.2 (.managed 0) ⟨.font ⟨1, 1, [1]⟩, ⟨.nearest⟩, some (0, 0)⟩ (0, 0) rfl rfl

/-- One lifecycle step changes the paintable budget by at most the
number of end_frame calls it contains: paints emitted plus the remaining
pending-shapes bonus never exceed the incoming bonus plus one for an
end_frame. -/
theorem stepOp_bonus (tess : List ClippedShape → List ClippedPrimitive) (ppp : ℚ)
    (st : EguiGeng) (op : Op) (st1 : EguiGeng) (effs : List DrawEffect)
    (h : stepOp tess ppp st op = .ok (st1, effs)) :
    countPaints effs + endsBonus st1 ≤ endsBonus st + (if op.isEnd then 1 else 0) := by
  cases op with
  | beginOp w =>
    simp only [stepOp, Res.ok.injEq, Prod.mk.injEq] at h
    obtain ⟨rfl, rfl⟩ := h
    simp [countPaints, endsBonus, begin_frame, Op.isEnd]
  | endOp output =>
    simp only [stepOp, end_frame, Res.ok.injEq, Prod.mk.injEq] at h
    obtain ⟨rfl, rfl⟩ := h
    by_cases hs : st.shapes.isSome <;>
      simp [countPaints, endsBonus, Op.isEnd, hs, DrawEffect.isPainted]
  | drawOp fb =>
    simp only [stepOp, draw] at h
    split at h
    next shapes heq =>
      split at h
      next m heq2 => simp at h
      next c trp heq2 =>
        simp only [Res.ok.injEq, Prod.mk.injEq] at h
        obtain ⟨rfl, rfl⟩ := h
        simp [countPaints, endsBonus, Op.isEnd, DrawEffect.isPainted, heq]
    next heq =>
      simp only [Res.ok.injEq, Prod.mk.injEq] at h
      obtain ⟨rfl, rfl⟩ := h
      simp [countPaints, endsBonus, Op.isEnd, DrawEffect.isPainted, heq]

/-- Across any op sequence, paints plus the final pending bonus are
bounded by the initial bonus plus the number of end_frame calls. -/
theorem runOps_paint_count (tess : List ClippedShape → List ClippedPrimitive) (ppp : ℚ) :
    ∀ (ops : List Op) (st st' : EguiGeng) (tr : List DrawEffect),
      runOps tess ppp st ops = .ok (st', tr) →
      countPaints tr + endsBonus st' ≤ endsBonus st + countEnds ops := by
  intro ops
  induction ops with
  | nil =>
    intro st st' tr h
    simp only [runOps, Res.ok.injEq, Prod.mk.injEq] at h
    obtain ⟨rfl, rfl⟩ := h
    simp [countPaints, countEnds]
  | cons op rest ih =>
    intro st st' tr h
    simp only [runOps] at h
    split at h
    next m heq => simp at h
    next st1 effs heq =>
      split at h
      next m2 heq2 => simp at h
      next st2 effs2 heq2 =>
        simp only [Res.ok.injEq, Prod.mk.injEq] at h
        obtain ⟨rfl, rfl⟩ := h
        have h1 := stepOp_bonus tess ppp st op st1 effs heq
        have h2 := ih st1 _ effs2 heq2
        have hcp : countPaints (effs ++ effs2) = countPaints effs + countPaints effs2 := by
          simp [countPaints, List.countP_append]
        have hce : countEnds (op :: rest) = countEnds rest + (if op.isEnd then 1 else 0) := by
          cases hoe : op.isEnd <;> simp [countEnds, List.countP_cons, hoe]
        omega

/-- C2: starting from a fresh bridge, every sequence of begin_frame,
end_frame and draw calls paints at most once per end_frame; and a draw
with no pending shape list performs no drawing — it yields only the
diagnostic effect (never a painted effect, so the framebuffer is
untouched) while transitioning back to the idle shapes state. -/
theorem c2_at_most_one_draw_per_end (tess : List ClippedShape → List ClippedPrimitive)
    (ppp : ℚ) :
    (∀ (ops : List Op) (st' : EguiGeng) (tr : List DrawEffect),
      runOps tess ppp EguiGeng.new ops = .ok (st', tr) →
      countPaints tr ≤ countEnds ops) ∧
    (∀ (fb : Nat × Nat) (st : EguiGeng), st.shapes = none →
      draw tess ppp fb st =
        .ok ({ st with screen_height := (fb.2 : ℚ)
                     , screen_rect := some ⟨(0, 0), ((fb.1 : ℚ), (fb.2 : ℚ))⟩ },
          [.diagnostic .failedToDraw])) := by
  constructor
  · intro ops st' tr h
    have hb := runOps_paint_count tess ppp ops EguiGeng.new st' tr h
    have h0 : endsBonus EguiGeng.new = 0 := rfl
    omega
  · intro fb st hs
    simp [draw, hs]

/-- Witness for C2: end, draw, draw — the second draw finds no shapes;
exactly one painted effect for one end_frame; and a direct draw on the
fresh bridge yields only the diagnostic. -/
theorem c2_at_most_one_draw_per_end_witness :
    runOps (fun _ => []) 1 EguiGeng.new
        [.endOp ⟨[], ⟨[], []⟩⟩, .drawOp (2, 2), .drawOp (2, 2)] =
      .ok ({ EguiGeng.new with screen_height := ((2 : ℕ) : ℚ)
                             , screen_rect := some ⟨(0, 0), (((2 : ℕ) : ℚ), ((2 : ℕ) : ℚ))⟩ },
        [.painted [], .diagnostic .failedToDraw]) ∧
    countPaints [.painted [], .diagnostic .failedToDraw] ≤
      countEnds [.endOp ⟨[], ⟨[], []⟩⟩, .drawOp (2, 2), .drawOp (2, 2)] ∧
    draw (fun _ => []) 1 (2, 2) EguiGeng.new =
      .ok ({ EguiGeng.new with screen_height := ((2 : ℕ) : ℚ)
                             , screen_rect := some ⟨(0, 0), (((2 : ℕ) : ℚ), ((2 : ℕ) : ℚ))⟩ },
        [.diagnostic .failedToDraw]) := by
  refine ⟨rfl, ?_, ?_⟩
  · exact (c2_at_most_one_draw_per_end (fun _ => []) 1).1
      [.endOp ⟨[], ⟨[], []⟩⟩, .drawOp (2, 2), .drawOp (2, 2)] _ _ rfl
  · exact (c2_at_most_one_draw_per_end (fun _ => []) 1).2 (2, 2) EguiGeng.new rfl

/-- A successful set_texture emits exactly one event: the cache
application or the missing-id diagnostic. -/
theorem set_texture_events (c : Cache) (id : TextureId) (d : ImageDelta)
    (c1 : Cache) (evs : List PEvent) (h : set_texture c id d = .ok (c1, evs)) :
    evs = [.texSet id] ∨ evs = [.logError (.failedToFindTexture id)] := by
  unfold set_texture at h
  split at h
  · split at h
    · split at h <;> split at h <;> simp at h
    · simp only [Res.ok.injEq, Prod.mk.injEq] at h
      exact Or.inr h.2.symm
  · split at h <;> split at h <;>
      first
        | (simp only [Res.ok.injEq, Prod.mk.injEq] at h; exact Or.inl h.2.symm)
        | simp at h

/-- Events of the set-delta loop are cache applications or diagnostics:
never paint events, never free events. -/
theorem applySets_events :
    ∀ (sets : List (TextureId × ImageDelta)) (c c1 : Cache) (se : List PEvent),
      applySets c sets = .ok (c1, se) →
      ∀ e ∈ se, e.isPaint = false ∧ e.isFree = false := by
  intro sets
  induction sets with
  | nil =>
    intro c c1 se h
    simp only [applySets, Res.ok.injEq, Prod.mk.injEq] at h
    obtain ⟨rfl, rfl⟩ := h
    simp
  | cons sd rest ih =>
    intro c c1 se h
    obtain ⟨id, d⟩ := sd
    simp only [applySets] at h
    split at h
    next m heq => simp at h
    next ca evs heq =>
      split at h
      next m heq2 => simp at h
      next cb evs2 heq2 =>
        simp only [Res.ok.injEq, Prod.mk.injEq] at h
        obtain ⟨rfl, rfl⟩ := h
        intro e he
        rcases List.mem_append.mp he with h1 | h2
        · rcases set_texture_events c id d ca evs heq with rfl | rfl <;>
            simp at h1 <;> subst h1 <;> simp [PEvent.isPaint, PEvent.isFree]
        · exact ih ca _ evs2 heq2 e h2

/-- A successful paint_job emits exactly one event: a draw call or the
missing-texture diagnostic. -/
theorem paint_job_events (c : Cache) (fb : ℚ × ℚ) (clip : Rect) (m : Mesh)
    (evs : List PEvent) (h : paint_job c fb clip m = .ok evs) :
    ∀ e ∈ evs, e.isSet = false ∧ e.isFree = false := by
  unfold paint_job at h
  split at h
  next id =>
    split at h <;>
      (simp only [Res.ok.injEq] at h; subst h;
       intro e he; simp at he; subst he; simp [PEvent.isSet, PEvent.isFree])
  next id => simp at h

/-- Paint events are draw calls, callback invocations or diagnostics:
never cache set events, never cache free events. -/
theorem paint_events (fb : ℚ × ℚ) (ppp : ℚ) :
    ∀ (prims : List ClippedPrimitive) (c : Cache) (evs : List PEvent),
      paint c fb prims ppp = .ok evs →
      ∀ e ∈ evs, e.isSet = false ∧ e.isFree = false := by
  intro prims
  induction prims with
  | nil =>
    intro c evs h
    simp only [paint, Res.ok.injEq] at h
    subst h
    simp
  | cons p rest ih =>
    intro c evs h
    obtain ⟨clip, prim⟩ := p
    cases prim with
    | mesh m =>
      simp only [paint] at h
      split at h
      next pm heq => simp at h
      next evs1 heq =>
        split at h
        next pm2 heq2 => simp at h
        next evs2 heq2 =>
          simp only [Res.ok.injEq] at h
          subst h
          intro e he
          rcases List.mem_append.mp he with h1 | h2
          · exact paint_job_events c fb clip m evs1 heq e h1
          · exact ih c evs2 heq2 e h2
    | callback cb =>
      simp only [paint] at h
      cases hcb : cb.callback with
      | callbackFn cid =>
        rw [hcb] at h
        split at h
        next pm2 heq2 => simp at h
        next evs1 heq2 =>
          simp only [Res.ok.injEq] at heq2
          subst heq2
          split at h
          next pm3 heq3 => simp at h
          next evs2 heq3 =>
            simp only [Res.ok.injEq] at h
            subst h
            intro e he
            rcases List.mem_append.mp he with h1 | h2
            · simp at h1; subst h1; simp [PEvent.isSet, PEvent.isFree]
            · exact ih c evs2 heq3 e h2
      | other =>
        rw [hcb] at h
        split at h
        next pm2 heq2 => simp at h
        next evs1 heq2 =>
          simp only [Res.ok.injEq] at heq2
          subst heq2
          split at h
          next pm3 heq3 => simp at h
          next evs2 heq3 =>
            simp only [Res.ok.injEq] at h
            subst h
            intro e he
            rcases List.mem_append.mp he with h1 | h2
            · simp at h1; subst h1; simp [PEvent.isSet, PEvent.isFree]
            · exact ih c evs2 heq3 e h2

/-- In a trace split as u ++ v, any P-event sits strictly before any
Q-event when u contains no Q-event and v contains no P-event. -/
theorem split_order {α : Type} (P Q : α → Bool) (u v : List α)
    (hu : ∀ x ∈ u, Q x = false) (hv : ∀ x ∈ v, P x = false) :
    ∀ tr : List α, tr = u ++ v →
    ∀ i j, ∀ (hi : i < tr.length) (hj : j < tr.length),
      P (tr[i]) = true → Q (tr[j]) = true → i < j := by
  intro tr htr
  subst htr
  intro i j hi hj hP hQ
  have hlen : (u ++ v).length = u.length + v.length := List.length_append u v
  have hiu : i < u.length := by
    by_contra hge
    push_neg at hge
    have hidx : i - u.length < v.length := by omega
    have hget : (u ++ v)[i] = v[i - u.length] := by
      rw [List.getElem_append_right hge]
    rw [hget] at hP
    have hfalse := hv _ (List.getElem_mem hidx)
    rw [hfalse] at hP
    exact Bool.noConfusion hP
  have hju : u.length ≤ j := by
    by_contra hlt
    push_neg at hlt
    have hget : (u ++ v)[j] = u[j] := List.getElem_append_left hlt
    rw [hget] at hQ
    have hfalse := hu _ (List.getElem_mem hlt)
    rw [hfalse] at hQ
    exact Bool.noConfusion hQ
  omega

/-- C1: in every successful paint_and_update_textures call, the trace
decomposes as set-loop events, then paint events, then free events: all
create/update deltas are applied (producing cache c1) strictly before
any clipped primitive is painted, painting runs against c1 — the
post-set, pre-free cache, so a primitive may still reference a texture
whose free is scheduled this frame — and every free is applied strictly
after all primitives, as the positional orderings state. -/
theorem c1_sets_before_paints_before_frees (cache : Cache) (fb : ℚ × ℚ)
    (prims : List ClippedPrimitive) (delta : TexturesDelta) (ppp : ℚ)
    (c' : Cache) (tr : List PEvent)
    (h : paint_and_update_textures cache fb prims delta ppp = .ok (c', tr)) :
    ∃ c1 se pe,
      applySets cache delta.set = .ok (c1, se) ∧
      paint c1 fb prims ppp = .ok pe ∧
      tr = se ++ pe ++ delta.free.map PEvent.texFree ∧
      c' = delta.free.foldl free_texture c1 ∧
      (∀ i j, ∀ (hi : i < tr.length) (hj : j < tr.length),
        (tr[i]).isSet = true → (tr[j]).isPaint = true → i < j) ∧
      (∀ i j, ∀ (hi : i < tr.length) (hj : j < tr.length),
        (tr[i]).isPaint = true → (tr[j]).isFree = true → i < j) := by
  unfold paint_and_update_textures at h
  split at h
  next m heq => simp at h
  next c1 se heq =>
    split at h
    next m2 heq2 => simp at h
    next pe heq2 =>
      simp only [Res.ok.injEq, Prod.mk.injEq] at h
      obtain ⟨hc, htr⟩ := h
      have hse := applySets_events delta.set cache c1 se heq
      have hpe := paint_events fb ppp prims c1 pe heq2
      have hfrS : ∀ x ∈ delta.free.map PEvent.texFree, PEvent.isSet x = false := by
        intro x hx
        obtain ⟨id, _, rfl⟩ := List.mem_map.mp hx
        rfl
      have hfrP : ∀ x ∈ delta.free.map PEvent.texFree, PEvent.isPaint x = false := by
        intro x hx
        obtain ⟨id, _, rfl⟩ := List.mem_map.mp hx
        rfl
      refine ⟨c1, se, pe, heq, heq2, htr.symm, hc.symm, ?_, ?_⟩
      · refine split_order PEvent.isSet PEvent.isPaint se
          (pe ++ delta.free.map PEvent.texFree) ?_ ?_ tr ?_
        · intro x hx
          exact (hse x hx).1
        · intro x hx
          rcases List.mem_append.mp hx with h1 | h2
          · exact (hpe x h1).1
          · exact hfrS x h2
        · rw [← htr, List.append_assoc]
      · refine split_order PEvent.isPaint PEvent.isFree
          (se ++ pe) (delta.free.map PEvent.texFree) ?_ ?_ tr ?_
        · intro x hx
          rcases List.mem_append.mp hx with h1 | h2
          · exact (hse x h1).2
          · exact (hpe x h2).2
        · intro x hx
          exact hfrP x hx
        · rw [← htr]

/-- Witness for C1: one create delta, one callback primitive, one free of
the same texture id in the same frame — the trace is exactly set, then
paint-loop event, then free. -/
theorem c1_sets_before_paints_before_frees_witness :
    paint_and_update_textures [] (2, 2)
        [⟨⟨(0, 0), (1, 1)⟩, .callback ⟨⟨(0, 0), (1, 1)⟩, .other⟩⟩]
        ⟨[(.managed 0, ⟨.font ⟨1, 1, [1]⟩, ⟨.linear⟩, none⟩)], [.managed 0]⟩ 1 =
      .ok ([], [.texSet (.managed 0), .logWarn .unsupportedCallback,
        .texFree (.managed 0)]) ∧
    (∃ c1 se pe,
      applySets [] [(.managed 0, ⟨.font ⟨1, 1, [1]⟩, ⟨.linear⟩, none⟩)] = .ok (c1, se) ∧
      paint c1 (2, 2) [⟨⟨(0, 0), (1, 1)⟩, .callback ⟨⟨(0, 0), (1, 1)⟩, .other⟩⟩] 1 =
        .ok pe ∧
      ([.texSet (.managed 0), .logWarn .unsupportedCallback,
        .texFree (.managed 0)] : List PEvent) =
        se ++ pe ++ ([.managed 0] : List TextureId).map PEvent.texFree ∧
      ([] : Cache) = ([.managed 0] : List TextureId).foldl free_texture c1 ∧
      (∀ i j, ∀ (hi : i < ([.texSet (.managed 0), .logWarn .unsupportedCallback,
          .texFree (.managed 0)] : List PEvent).length)
          (hj : j < ([.texSet (.managed 0), .logWarn .unsupportedCallback,
          .texFree (.managed 0)] : List PEvent).length),
        (([.texSet (.managed 0), .logWarn .unsupportedCallback,
          .texFree (.managed 0)] : List PEvent)[i]).isSet = true →
        (([.texSet (.managed 0), .logWarn .unsupportedCallback,
          .texFree (.managed 0)] : List PEvent)[j]).isPaint = true → i < j) ∧
      (∀ i j, ∀ (hi : i < ([.texSet (.managed 0), .logWarn .unsupportedCallback,
          .texFree (.managed 0)] : List PEvent).length)
          (hj : j < ([.texSet (.managed 0), .logWarn .unsupportedCallback,
          .texFree (.managed 0)] : List PEvent).length),
        (([.texSet (.managed 0), .logWarn .unsupportedCallback,
          .texFree (.managed 0)] : List PEvent)[i]).isPaint = true →
        (([.texSet (.managed 0), .logWarn .unsupportedCallback,
          .texFree (.managed 0)] : List PEvent)[j]).isFree = true → i < j)) :=
  ⟨rfl,
   c1_sets_before_paints_before_frees [] (2, 2)
     [⟨⟨(0, 0), (1, 1)⟩, .callback ⟨⟨(0, 0), (1, 1)⟩, .other⟩⟩]
     ⟨[(.managed 0, ⟨.font ⟨1, 1, [1]⟩, ⟨.linear⟩, none⟩)], [.managed 0]⟩ 1 []
     [.texSet (.managed 0), .logWarn .unsupportedCallback, .texFree (.managed 0)]
     rfl⟩
